import Mathlib

/-!
Shallow embedding of `src/app.py` (ER note generator, a Streamlit app over the
Gemini text-generation API).

Python strings are modelled as `List Char`.  The external text-generation
service is modelled as an oracle `PyStr → RemoteOutcome`: the outcome of
`model.generate_content(prompt)` followed by the `.text` access, which either
yields a response text or raises an exception carrying a message.  Network
effects are made explicit: `generate_er_note` returns, besides its output
string, the list of payloads of the network calls it performed.
-/

/-- Python strings, modelled as lists of characters. -/
abbrev PyStr := List Char

/-- The backtick character U+0060 (the unit of the `"``````"` fence marker). -/
def tick : Char := '\x60'

/-- Code points of the characters CPython's `str.strip()` removes: the six
ASCII whitespace characters (tab, newline, vertical tab, form feed, carriage
return, space) together with the other Unicode whitespace code points
U+001C-001F, U+0085, U+00A0, U+1680, U+2000-200A, U+2028, U+2029, U+202F,
U+205F and U+3000. -/
def pyWhitespaceCodes : List Nat :=
  [0x09, 0x0a, 0x0b, 0x0c, 0x0d, 0x1c, 0x1d, 0x1e, 0x1f, 0x20, 0x85, 0xa0,
   0x1680, 0x2000, 0x2001, 0x2002, 0x2003, 0x2004, 0x2005, 0x2006, 0x2007,
   0x2008, 0x2009, 0x200a, 0x2028, 0x2029, 0x202f, 0x205f, 0x3000]

/-- Whitespace as recognised by Python's `str.strip()` and `str.isspace()`. -/
def pyIsSpace (c : Char) : Bool := pyWhitespaceCodes.contains c.toNat

/-- Remove leading whitespace (left half of Python's `str.strip()`). -/
def lstrip (l : PyStr) : PyStr := l.dropWhile pyIsSpace

/-- Remove trailing whitespace (right half of Python's `str.strip()`). -/
def rstrip (l : PyStr) : PyStr := (l.reverse.dropWhile pyIsSpace).reverse

/-- Python's `str.strip()`: remove leading and trailing whitespace. -/
def pyStrip (l : PyStr) : PyStr := rstrip (lstrip l)

/-- Python's `s.replace("``````", "")` (source line 77): scan left to right,
deleting each non-overlapping occurrence of three consecutive backticks. -/
def replaceTicks : PyStr → PyStr
  | c1 :: c2 :: c3 :: rest =>
    if c1 = tick ∧ c2 = tick ∧ c3 = tick then replaceTicks rest
    else c1 :: replaceTicks (c2 :: c3 :: rest)
  | l => l

/-- Decides whether three consecutive backticks occur anywhere in the string. -/
def containsTriple : PyStr → Bool
  | c1 :: c2 :: c3 :: rest =>
    if c1 = tick ∧ c2 = tick ∧ c3 = tick then true
    else containsTriple (c2 :: c3 :: rest)
  | _ => false

/-- Post-processing of a successful response (source line 77):
`response.text.replace("``````", "").strip()`. -/
def postProcess (t : PyStr) : PyStr := pyStrip (replaceTicks t)

/-- Occurrence of `x` as a contiguous substring of `l`. -/
def occursIn (x l : PyStr) : Prop := ∃ a b, a ++ x ++ b = l

/-- Warning returned for empty or whitespace-only input (source line 26). -/
def emptyWarning : PyStr := "⚠️ Error: Input text cannot be empty.".data

/-- Fixed text preceding the exception message in the error string built on
source line 79. -/
def apiErrorHead : PyStr := "❌ An error occurred with the API: ".data

/-- Instructional paragraph of the prompt template up to the opening
delimiter line (source lines 29-33, verbatim). -/
def promptIntro : PyStr := "\n    Use the information in the document provided below to draft an ER physician note with the following structure. Fill in the placeholders (e.g., @DEPTNME@, @ED@) with the relevant information from the document. If information for a specific field is not available in the document, write \"Not Available\". As part of the summary narrative, include a focused differential for the presenting complaint, and exclude all but the final diagnosis implied by the note, and provide a rationale for finding the other diagnoses to be unlikely. Use CDRs where available. Suppress the patient's name from the note as well as their address. The only PHI should be their DOB and MRN.\n\n    **Document Content:**\n    ".data

/-- Opening delimiter line placed immediately before the document content. -/
def docOpen : PyStr := "---\n    ".data

/-- Closing delimiter line placed immediately after the document content. -/
def docClose : PyStr := "\n    ---".data

/-- Placeholder token for the department name. -/
def tokDeptName : PyStr := "@DEPTNME@".data

/-- Placeholder token for the visit date. -/
def tokEd : PyStr := "@ED@".data

/-- Placeholder token for the medical record number. -/
def tokMrn : PyStr := "@MRN@".data

/-- Placeholder token for the birth date. -/
def tokBday : PyStr := "@BDAY@".data

/-- Placeholder token for the chief complaint. -/
def tokChief : PyStr := "@CHIEFCOMPLAINTNNOLINE@".data

/-- Placeholder token for the past medical history. -/
def tokPmh : PyStr := "@PMH@".data

/-- Placeholder token for the ED course narrative. -/
def tokEdCourse : PyStr := "@EDCOURSE@".data

/-- Placeholder token for the physician name. -/
def tokMdName : PyStr := "@MDNAME@".data

/-- Template text between the closing delimiter and the first `@DEPTNME@`. -/
def seg0 : PyStr := "\n\n    **ER Note Template:**\n    ".data

/-- Template text between `@DEPTNME@` and `@ED@`. -/
def seg1 : PyStr := " DEPARTMENT ENCOUNTER NOTE\n\n    Date of Visit:       ".data

/-- Template text between `@ED@` and `@MRN@`. -/
def seg2 : PyStr := " (dd/mm/yyyy)\n    Location:            @DEPTNME@\n\n    MRN:         ".data

/-- Template text between `@MRN@` and `@BDAY@`. -/
def seg3 : PyStr := "\n    Birth Date & Age:    ".data

/-- Template text between `@BDAY@` and `@CHIEFCOMPLAINTNNOLINE@`. -/
def seg4 : PyStr := " | @AGEPEDS@\n\n    Primary Concern:     ".data

/-- Template text between `@CHIEFCOMPLAINTNNOLINE@` and `@PMH@`. -/
def seg5 : PyStr := "\n\n    Appropriate PPE donned and doffed with serial handwashing in accordance with hospital policies.\n    Additional notes may appear in the written record.\n\n    Identified myself to the patient, requested use of my preferred pronouns, and showed the patient my badge indicating name and pronouns.\n\n    Triage note, nursing note, past medical history and medications reviewed.\n\n    IDENTIFICATION\n    @AGE@ year old individual. Preferred pronouns asked and used as applicable.\n\n    FOCUSED PAST MEDICAL HISTORY\n    ".data

/-- Template text between `@PMH@` and `@EDCOURSE@`. -/
def seg6 : PyStr := " @PSH@ @PROB@\n\n    FOCUSED MEDICATIONS & ALLERGIES\n    @HOMEMEDS@\n    @CERMSG(160084265:16010)@@ALLERGYNOHEADER@\n\n    NOTE\n    ".data

/-- Template text between `@EDCOURSE@` and `@MDNAME@`. -/
def seg7 : PyStr := "\n\n    Refer to ED Course (above) for subsequent assessments and impressions.\n\n    ".data

/-- Template text after `@MDNAME@`, to the end of the template. -/
def seg8 : PyStr := "\n    Emergency Medicine Physician\n\n    Note: This ED Encounter Note was completed using voice recognition software. It may not have been proofread and there may be errors related to sound-alike phrases and homonyms. Pronoun errors, if present, are unintentional. Verbal consent obtained for any photos included in record. To request error correction contact UHN Health Records.\n    ".data

/-- Part of the rendered prompt that precedes the embedded document content
(source lines 29-34). -/
def promptHead : PyStr := promptIntro ++ docOpen

/-- Part of the rendered prompt that follows the embedded document content
(source lines 34-74), written as the concatenation of its literal pieces with
one occurrence of each named placeholder token exposed. -/
def promptTail : PyStr :=
  docClose ++ (seg0 ++ (tokDeptName ++ (seg1 ++ (tokEd ++ (seg2 ++ (tokMrn ++
    (seg3 ++ (tokBday ++ (seg4 ++ (tokChief ++ (seg5 ++ (tokPmh ++ (seg6 ++
    (tokEdCourse ++ (seg7 ++ (tokMdName ++ seg8))))))))))))))))

/-- Rendering of the f-string `prompt` (source lines 29-74): the fixed
template with `text_content` substituted into its single placeholder region. -/
def renderPrompt (text_content : PyStr) : PyStr :=
  promptHead ++ text_content ++ promptTail

/-- Outcome of `model.generate_content(prompt)` followed by the `.text`
access: either a response text, or an exception carrying a message. -/
inductive RemoteOutcome where
  | success (text : PyStr)
  | failure (msg : PyStr)

/-- Result of one run of `generate_er_note`: the returned string together
with the payloads of the network calls performed, in order. -/
structure GenResult where
  output : PyStr
  calls : List PyStr
deriving DecidableEq

/-- Embedding of `generate_er_note` (source lines 23-79).  The `remote`
oracle stands for the external text-generation service. -/
def generate_er_note (remote : PyStr → RemoteOutcome) (text_content : PyStr) :
    GenResult :=
  if text_content = [] ∨ pyStrip text_content = [] then
    { output := emptyWarning, calls := [] }
  else
    match remote (renderPrompt text_content) with
    | RemoteOutcome.success t =>
      { output := postProcess t, calls := [renderPrompt text_content] }
    | RemoteOutcome.failure e =>
      { output := apiErrorHead ++ e, calls := [renderPrompt text_content] }

/-- Outcome of evaluating `st.secrets["GEMINI_API_KEY"]`: a value, a raised
`KeyError`, a raised `AttributeError`, or a raised exception of any other
class (one that is an instance of neither `KeyError` nor `AttributeError`),
identified by its class name. -/
inductive SecretsOutcome where
  | found (v : PyStr)
  | keyError
  | attributeError
  | otherError (name : PyStr)
deriving DecidableEq

/-- Result of one run of `setup_api_key`: the value returned (`none` when an
exception escaped), the class name of the escaped exception if any, and the
key passed to `genai.configure` if it was called. -/
structure SetupResult where
  returnValue : Option Bool
  raised : Option PyStr
  configuredKey : Option PyStr
deriving DecidableEq

/-- Python truthiness of `os.environ.get("GEMINI_API_KEY")`: `None` and the
empty string are falsy, every other string is truthy. -/
def pyTruthy (env : Option PyStr) : Bool :=
  match env with
  | some v => !v.isEmpty
  | none => false

/-- Branch of `setup_api_key` in which the `or` falls through and
`st.secrets["GEMINI_API_KEY"]` is evaluated: the `try`/`except` catches
`KeyError` and `AttributeError` only (source lines 14-21). -/
def setupFromSecrets (secrets : SecretsOutcome) : SetupResult :=
  match secrets with
  | SecretsOutcome.found v =>
    { returnValue := some true, raised := none, configuredKey := some v }
  | SecretsOutcome.keyError =>
    { returnValue := some false, raised := none, configuredKey := none }
  | SecretsOutcome.attributeError =>
    { returnValue := some false, raised := none, configuredKey := none }
  | SecretsOutcome.otherError name =>
    { returnValue := none, raised := some name, configuredKey := none }

/-- Embedding of `setup_api_key` (source lines 12-21).  `env` is the value of
`os.environ.get("GEMINI_API_KEY")`; `secrets` is the outcome the secrets
lookup would have if evaluated. -/
def setup_api_key (env : Option PyStr) (secrets : SecretsOutcome) :
    SetupResult :=
  match env with
  | some v =>
    if !v.isEmpty then
      { returnValue := some true, raised := none, configuredKey := some v }
    else setupFromSecrets secrets
  | none => setupFromSecrets secrets

/-- Page-level error shown when the credential is unresolved
(source line 89). -/
def keyMissingMsg : PyStr :=
  "GEMINI_API_KEY is not set. Please set it as an environment variable or a Streamlit secret.".data

/-- What one run of the Streamlit script renders: the page-level error if
any, whether the text area and the submit button are shown, and the result
of the generation call if one was made. -/
structure AppView where
  pageError : Option PyStr
  textAreaShown : Bool
  buttonShown : Bool
  generated : Option GenResult

/-- Network calls performed during one run of the script. -/
def AppView.networkCalls (v : AppView) : List PyStr :=
  match v.generated with
  | some r => r.calls
  | none => []

/-- Embedding of the top-level Streamlit script (source lines 88-106):
`keyOk` is the value returned by `setup_api_key()`; `buttonPressed` and
`sourceText` are the state of the widgets on this run. -/
def app_main (keyOk : Bool) (buttonPressed : Bool) (sourceText : PyStr)
    (remote : PyStr → RemoteOutcome) : AppView :=
  if keyOk then
    if buttonPressed then
      { pageError := none, textAreaShown := true, buttonShown := true,
        generated := some (generate_er_note remote sourceText) }
    else
      { pageError := none, textAreaShown := true, buttonShown := true,
        generated := none }
  else
    { pageError := some keyMissingMsg, textAreaShown := false,
      buttonShown := false, generated := none }

/-- Three consecutive backticks, the fence marker removed on source line 77. -/
def tripleTick : PyStr := [tick, tick, tick]

/-- Concrete service oracle that always succeeds with an empty response. -/
def remoteNull : PyStr → RemoteOutcome := fun _ => RemoteOutcome.success []

/-- Concrete service oracle that always raises with message "quota exceeded". -/
def remoteQuota : PyStr → RemoteOutcome :=
  fun _ => RemoteOutcome.failure "quota exceeded".data

/-- Concrete service oracle that always succeeds with a fenced response
surrounded by whitespace. -/
def remoteFenced : PyStr → RemoteOutcome :=
  fun _ => RemoteOutcome.success ("  \x60\x60\x60ok\x60\x60\x60\n".data)

/-- Exception class name used to exercise the uncaught-exception path of
`setup_api_key`. -/
def exOtherName : PyStr := "StreamlitSecretNotFoundError".data

/-- Contract of the rendered prompt for a valid input `t`: exactly one
network call is made, its payload is the fixed template with `t` embedded,
`t` sits verbatim between the literal delimiter lines, and the payload
carries the template's placeholder tokens as instructional content. -/
def promptContract (remote : PyStr → RemoteOutcome) (t : PyStr) : Prop :=
  (generate_er_note remote t).calls = [renderPrompt t] ∧
  renderPrompt t = promptHead ++ t ++ promptTail ∧
  occursIn (docOpen ++ t ++ docClose) (renderPrompt t) ∧
  occursIn tokDeptName (renderPrompt t) ∧
  occursIn tokEd (renderPrompt t) ∧
  occursIn tokMrn (renderPrompt t) ∧
  occursIn tokBday (renderPrompt t) ∧
  occursIn tokChief (renderPrompt t) ∧
  occursIn tokPmh (renderPrompt t) ∧
  occursIn tokEdCourse (renderPrompt t) ∧
  occursIn tokMdName (renderPrompt t)

/-! Helper lemmas about `replaceTicks` and `containsTriple`. -/

theorem replaceTicks_two (c d : Char) : replaceTicks [c, d] = [c, d] := rfl

theorem replaceTicks_three (c1 c2 c3 : Char) (rest : PyStr) :
    replaceTicks (c1 :: c2 :: c3 :: rest) =
      if c1 = tick ∧ c2 = tick ∧ c3 = tick then replaceTicks rest
      else c1 :: replaceTicks (c2 :: c3 :: rest) := rfl

theorem containsTriple_three (c1 c2 c3 : Char) (rest : PyStr) :
    containsTriple (c1 :: c2 :: c3 :: rest) =
      if c1 = tick ∧ c2 = tick ∧ c3 = tick then true
      else containsTriple (c2 :: c3 :: rest) := rfl

theorem replaceTicks_cons_of_ne (c : Char) (l : PyStr) (hc : c ≠ tick) :
    replaceTicks (c :: l) = c :: replaceTicks l := by
  cases l with
  | nil => rfl
  | cons d t =>
    cases t with
    | nil => rfl
    | cons e t2 => rw [replaceTicks_three, if_neg (fun h => hc h.1)]

theorem containsTriple_cons_fst (c : Char) (l : PyStr) (hc : c ≠ tick) :
    containsTriple (c :: l) = containsTriple l := by
  cases l with
  | nil => rfl
  | cons d t =>
    cases t with
    | nil => rfl
    | cons e t2 => rw [containsTriple_three, if_neg (fun h => hc h.1)]

theorem containsTriple_cons_snd (c d : Char) (l : PyStr) (hd : d ≠ tick) :
    containsTriple (c :: d :: l) = containsTriple (d :: l) := by
  cases l with
  | nil => rfl
  | cons e t => rw [containsTriple_three, if_neg (fun h => hd h.2.1)]

theorem containsTriple_cons_of_true (c : Char) (l : PyStr)
    (h : containsTriple l = true) : containsTriple (c :: l) = true := by
  cases l with
  | nil => exact absurd h (by simp [containsTriple])
  | cons d t =>
    cases t with
    | nil => exact absurd h (by simp [containsTriple])
    | cons e t2 =>
      rw [containsTriple_three]
      by_cases hco : c = tick ∧ d = tick ∧ e = tick
      · rw [if_pos hco]
      · rw [if_neg hco]; exact h

theorem containsTriple_append_right (a b : PyStr)
    (h : containsTriple a = true) : containsTriple (a ++ b) = true := by
  induction a with
  | nil => exact absurd h (by simp [containsTriple])
  | cons c t ih =>
    cases t with
    | nil => exact absurd h (by simp [containsTriple])
    | cons d t2 =>
      cases t2 with
      | nil => exact absurd h (by simp [containsTriple])
      | cons e t3 =>
        rw [containsTriple_three] at h
        show containsTriple (c :: d :: e :: (t3 ++ b)) = true
        rw [containsTriple_three]
        by_cases hco : c = tick ∧ d = tick ∧ e = tick
        · rw [if_pos hco]
        · rw [if_neg hco]
          rw [if_neg hco] at h
          exact ih h

theorem containsTriple_append_left (a b : PyStr)
    (h : containsTriple b = true) : containsTriple (a ++ b) = true := by
  induction a with
  | nil => exact h
  | cons c t ih => exact containsTriple_cons_of_true c (t ++ b) ih

theorem containsTriple_of_part (x l : PyStr) (hx : occursIn x l)
    (h : containsTriple x = true) : containsTriple l = true := by
  obtain ⟨a, b, rfl⟩ := hx
  rw [List.append_assoc]
  exact containsTriple_append_left a (x ++ b) (containsTriple_append_right x b h)

theorem containsTriple_replaceTicks_aux :
    ∀ n, ∀ l : PyStr, l.length ≤ n → containsTriple (replaceTicks l) = false := by
  intro n
  induction n with
  | zero =>
    intro l hl
    have hnil : l = [] := List.length_eq_zero.mp (Nat.le_zero.mp hl)
    subst hnil; rfl
  | succ n ih =>
    intro l hl
    cases l with
    | nil => rfl
    | cons c1 t1 =>
      cases t1 with
      | nil => rfl
      | cons c2 t2 =>
        cases t2 with
        | nil => rfl
        | cons c3 rest =>
          rw [replaceTicks_three]
          by_cases hco : c1 = tick ∧ c2 = tick ∧ c3 = tick
          · rw [if_pos hco]
            exact ih rest (by simp only [List.length_cons] at hl; omega)
          · rw [if_neg hco]
            have hr : containsTriple (replaceTicks (c2 :: c3 :: rest)) = false :=
              ih (c2 :: c3 :: rest)
                (by simp only [List.length_cons] at hl ⊢; omega)
            by_cases h1 : c1 = tick
            · by_cases h2 : c2 = tick
              · have h3 : c3 ≠ tick := fun h3 => hco ⟨h1, h2, h3⟩
                subst h1; subst h2
                cases rest with
                | nil =>
                  rw [replaceTicks_two, containsTriple_three,
                    if_neg (fun h => h3 h.2.2)]
                  rfl
                | cons e rest2 =>
                  rw [replaceTicks_three, if_neg (fun h => h3 h.2.1),
                    replaceTicks_cons_of_ne c3 _ h3, containsTriple_three,
                    if_neg (fun h => h3 h.2.2),
                    containsTriple_cons_snd _ _ _ h3,
                    containsTriple_cons_fst _ _ h3]
                  exact ih (e :: rest2)
                    (by simp only [List.length_cons] at hl ⊢; omega)
              · rw [replaceTicks_cons_of_ne c2 _ h2,
                  containsTriple_cons_snd _ _ _ h2,
                  ← replaceTicks_cons_of_ne c2 _ h2]
                exact hr
            · rw [containsTriple_cons_fst _ _ h1]
              exact hr

theorem containsTriple_replaceTicks (l : PyStr) :
    containsTriple (replaceTicks l) = false :=
  containsTriple_replaceTicks_aux l.length l (Nat.le_refl _)

theorem replaceTicks_eq_self (l : PyStr) (h : containsTriple l = false) :
    replaceTicks l = l := by
  induction l with
  | nil => rfl
  | cons c t ih =>
    cases t with
    | nil => rfl
    | cons d t2 =>
      cases t2 with
      | nil => rfl
      | cons e t3 =>
        rw [containsTriple_three] at h
        by_cases hco : c = tick ∧ d = tick ∧ e = tick
        · rw [if_pos hco] at h; exact absurd h (by simp)
        · rw [if_neg hco] at h
          rw [replaceTicks_three, if_neg hco, ih h]

/-! Helper lemmas about `lstrip`, `rstrip` and `pyStrip`. -/

theorem dropWhile_head_not (p : Char → Bool) (l : PyStr) (c : Char)
    (h : (l.dropWhile p).head? = some c) : p c = false := by
  induction l with
  | nil => simp [List.dropWhile] at h
  | cons d t ih =>
    rw [List.dropWhile_cons] at h
    by_cases hp : p d
    · rw [if_pos hp] at h; exact ih h
    · rw [if_neg hp] at h
      simp only [List.head?, Option.some.injEq] at h
      subst h
      exact Bool.eq_false_iff.mpr hp

theorem dropWhile_eq_self_of_head (p : Char → Bool) (l : PyStr)
    (h : ∀ c, l.head? = some c → p c = false) : l.dropWhile p = l := by
  cases l with
  | nil => rfl
  | cons c t =>
    have hc : p c = false := h c rfl
    rw [List.dropWhile_cons, if_neg (by simp [hc])]

theorem rstrip_append (l : PyStr) :
    rstrip l ++ (l.reverse.takeWhile pyIsSpace).reverse = l := by
  unfold rstrip
  rw [← List.reverse_append, List.takeWhile_append_dropWhile,
    List.reverse_reverse]

theorem rstrip_eq_self_of_last (x : PyStr)
    (h : ∀ c, x.getLast? = some c → pyIsSpace c = false) : rstrip x = x := by
  have hdw : x.reverse.dropWhile pyIsSpace = x.reverse :=
    dropWhile_eq_self_of_head pyIsSpace x.reverse
      (fun c hc => h c (by rwa [List.head?_reverse] at hc))
  unfold rstrip
  rw [hdw, List.reverse_reverse]

theorem pyStrip_part (l : PyStr) : occursIn (pyStrip l) l := by
  refine ⟨l.takeWhile pyIsSpace,
    ((lstrip l).reverse.takeWhile pyIsSpace).reverse, ?_⟩
  rw [List.append_assoc]
  show l.takeWhile pyIsSpace ++
    (rstrip (lstrip l) ++ ((lstrip l).reverse.takeWhile pyIsSpace).reverse) = l
  rw [rstrip_append (lstrip l)]
  exact List.takeWhile_append_dropWhile pyIsSpace l

theorem pyStrip_head_not (l : PyStr) (c : Char)
    (h : (pyStrip l).head? = some c) : pyIsSpace c = false := by
  have hm : (lstrip l).head? = some c := by
    have hd := rstrip_append (lstrip l)
    cases hps : pyStrip l with
    | nil => rw [hps] at h; simp at h
    | cons c0 t =>
      rw [hps] at h
      simp only [List.head?, Option.some.injEq] at h
      have hps' : rstrip (lstrip l) = c0 :: t := hps
      rw [hps'] at hd
      rw [← hd]
      simp [h]
  exact dropWhile_head_not pyIsSpace l c hm

theorem pyStrip_last_not (l : PyStr) (c : Char)
    (h : (pyStrip l).getLast? = some c) : pyIsSpace c = false := by
  have hrev : (pyStrip l).reverse.head? = some c := by
    rw [List.head?_reverse]; exact h
  have heq : (pyStrip l).reverse = (lstrip l).reverse.dropWhile pyIsSpace := by
    show (rstrip (lstrip l)).reverse = (lstrip l).reverse.dropWhile pyIsSpace
    unfold rstrip
    rw [List.reverse_reverse]
  rw [heq] at hrev
  exact dropWhile_head_not pyIsSpace (lstrip l).reverse c hrev

theorem pyStrip_eq_nil_of_all (l : PyStr)
    (h : ∀ c ∈ l, pyIsSpace c = true) : pyStrip l = [] := by
  have h1 : lstrip l = [] := List.dropWhile_eq_nil_iff.mpr h
  show rstrip (lstrip l) = []
  rw [h1]
  rfl

theorem all_space_of_pyStrip_eq_nil (l : PyStr) (h : pyStrip l = []) :
    ∀ c ∈ l, pyIsSpace c = true := by
  have hm : ∀ c ∈ lstrip l, pyIsSpace c = true := by
    have h2 : (lstrip l).reverse.dropWhile pyIsSpace = [] := by
      have h3 : (rstrip (lstrip l)).reverse = ([] : PyStr).reverse :=
        congrArg List.reverse h
      unfold rstrip at h3
      rwa [List.reverse_reverse] at h3
    have h4 := List.dropWhile_eq_nil_iff.mp h2
    intro c hc
    exact h4 c (List.mem_reverse.mpr hc)
  intro c hc
  have hdec := List.takeWhile_append_dropWhile pyIsSpace l
  rw [← hdec] at hc
  rcases List.mem_append.mp hc with h5 | h5
  · exact List.mem_takeWhile_imp h5
  · exact hm c h5

theorem pyStrip_idem (l : PyStr) : pyStrip (pyStrip l) = pyStrip l := by
  have h1 : lstrip (pyStrip l) = pyStrip l :=
    dropWhile_eq_self_of_head pyIsSpace (pyStrip l) (pyStrip_head_not l)
  have h2 : rstrip (pyStrip l) = pyStrip l :=
    rstrip_eq_self_of_last (pyStrip l) (pyStrip_last_not l)
  show rstrip (lstrip (pyStrip l)) = pyStrip l
  rw [h1, h2]

theorem containsTriple_postProcess (r : PyStr) :
    containsTriple (postProcess r) = false := by
  rcases Bool.eq_false_or_eq_true (containsTriple (postProcess r)) with h | h
  · have hmid : containsTriple (replaceTicks r) = true :=
      containsTriple_of_part _ _ (pyStrip_part (replaceTicks r)) h
    rw [containsTriple_replaceTicks r] at hmid
    exact absurd hmid (by simp)
  · exact h

/-! Helper lemmas about `occursIn` and the validation condition. -/

theorem occursIn_head (x b : PyStr) : occursIn x (x ++ b) :=
  ⟨[], b, by simp⟩

theorem occursIn_append_right (x a l : PyStr) (h : occursIn x l) :
    occursIn x (a ++ l) := by
  obtain ⟨s, t, rfl⟩ := h
  exact ⟨a ++ s, t, by simp [List.append_assoc]⟩

theorem genCond_false (t : PyStr) (h : ¬ ∀ c ∈ t, pyIsSpace c = true) :
    ¬(t = [] ∨ pyStrip t = []) := by
  rintro (rfl | hs)
  · exact h (by intro c hc; cases hc)
  · exact h (all_space_of_pyStrip_eq_nil t hs)

/-! Theorems settling the claims. -/

/-- Claim C1: for every input string that is empty or consists only of
whitespace characters, `generate_er_note` returns exactly the literal warning
string and performs zero network calls. -/
theorem C1_empty_input_warning_no_call (remote : PyStr → RemoteOutcome)
    (t : PyStr) (h : ∀ c ∈ t, pyIsSpace c = true) :
    generate_er_note remote t = { output := emptyWarning, calls := [] } := by
  unfold generate_er_note
  rw [if_pos (Or.inr (pyStrip_eq_nil_of_all t h))]

/-- Witness for C1 at the whitespace-only input "   ". -/
theorem C1_witness :
    generate_er_note remoteNull "   ".data =
      { output := emptyWarning, calls := [] } :=
  C1_empty_input_warning_no_call remoteNull "   ".data (by decide)

/-- Counterexample to C2 as stated: the input "   " is a non-empty string,
yet `generate_er_note` performs zero network calls on it (not exactly one). -/
theorem C2_counterexample :
    "   ".data ≠ [] ∧ (generate_er_note remoteNull "   ".data).calls = [] := by
  refine ⟨by decide, ?_⟩
  rw [C1_empty_input_warning_no_call remoteNull "   ".data (by decide)]

/-- Claim C2 (amended): for every input containing at least one
non-whitespace character, `generate_er_note` performs exactly one network
call, and the payload of that call contains the literal input text,
unmodified, as a substring. -/
theorem C2_one_call_payload_contains_input (remote : PyStr → RemoteOutcome)
    (t : PyStr) (h : ¬ ∀ c ∈ t, pyIsSpace c = true) :
    (generate_er_note remote t).calls = [renderPrompt t] ∧
      occursIn t (renderPrompt t) := by
  refine ⟨?_, ⟨promptHead, promptTail, rfl⟩⟩
  unfold generate_er_note
  rw [if_neg (genCond_false t h)]
  cases remote (renderPrompt t) <;> rfl

/-- Witness for C2 (amended) at the input "hi". -/
theorem C2_witness :
    (generate_er_note remoteNull "hi".data).calls = [renderPrompt "hi".data] ∧
      occursIn "hi".data (renderPrompt "hi".data) :=
  C2_one_call_payload_contains_input remoteNull "hi".data (by decide)

/-- Claim C3: when the remote call raises, `generate_er_note` returns (rather
than propagating) the formatted error string, which contains the exception's
textual description as a substring. -/
theorem C3_failure_mapped_to_error_string (remote : PyStr → RemoteOutcome)
    (t e : PyStr) (h : ¬ ∀ c ∈ t, pyIsSpace c = true)
    (hrem : remote (renderPrompt t) = RemoteOutcome.failure e) :
    (generate_er_note remote t).output = apiErrorHead ++ e ∧
      occursIn e ((generate_er_note remote t).output) := by
  have hout : (generate_er_note remote t).output = apiErrorHead ++ e := by
    unfold generate_er_note
    rw [if_neg (genCond_false t h), hrem]
  exact ⟨hout, ⟨apiErrorHead, [], by rw [hout, List.append_nil]⟩⟩

/-- Witness for C3 with a remote failure carrying "quota exceeded". -/
theorem C3_witness :
    (generate_er_note remoteQuota "chest pain".data).output =
        apiErrorHead ++ "quota exceeded".data ∧
      occursIn "quota exceeded".data
        ((generate_er_note remoteQuota "chest pain".data).output) :=
  C3_failure_mapped_to_error_string remoteQuota "chest pain".data
    "quota exceeded".data (by decide) rfl

/-- Claim C4: on success the returned note is the post-processed response
text: it contains no occurrence of three consecutive backticks, and neither
its first nor its last character is whitespace. -/
theorem C4_no_fences_no_surrounding_space (remote : PyStr → RemoteOutcome)
    (t r : PyStr) (h : ¬ ∀ c ∈ t, pyIsSpace c = true)
    (hrem : remote (renderPrompt t) = RemoteOutcome.success r) :
    (generate_er_note remote t).output = postProcess r ∧
      ¬ occursIn tripleTick ((generate_er_note remote t).output) ∧
      (∀ c, ((generate_er_note remote t).output).head? = some c →
        pyIsSpace c = false) ∧
      (∀ c, ((generate_er_note remote t).output).getLast? = some c →
        pyIsSpace c = false) := by
  have hout : (generate_er_note remote t).output = postProcess r := by
    unfold generate_er_note
    rw [if_neg (genCond_false t h), hrem]
  rw [hout]
  refine ⟨rfl, ?_, ?_, ?_⟩
  · intro hocc
    have htrue : containsTriple (postProcess r) = true :=
      containsTriple_of_part _ _ hocc (by decide)
    rw [containsTriple_postProcess r] at htrue
    exact absurd htrue (by simp)
  · exact pyStrip_head_not (replaceTicks r)
  · exact pyStrip_last_not (replaceTicks r)

/-- Witness for C4 with a fenced, whitespace-surrounded response. -/
theorem C4_witness :
    (generate_er_note remoteFenced "note text".data).output =
        postProcess ("  \x60\x60\x60ok\x60\x60\x60\n".data) ∧
      ¬ occursIn tripleTick
        ((generate_er_note remoteFenced "note text".data).output) ∧
      (∀ c, ((generate_er_note remoteFenced "note text".data).output).head? =
        some c → pyIsSpace c = false) ∧
      (∀ c, ((generate_er_note remoteFenced "note text".data).output).getLast? =
        some c → pyIsSpace c = false) :=
  C4_no_fences_no_surrounding_space remoteFenced "note text".data
    ("  \x60\x60\x60ok\x60\x60\x60\n".data) (by decide) rfl

/-- Claim C5: `setup_api_key` returns true when the environment variable is
set to a non-empty string, and false when the environment variable is absent
and the secrets lookup provides no key (it raises `KeyError` or
`AttributeError`). -/
theorem C5_env_or_secrets (env : Option PyStr) (secrets : SecretsOutcome) :
    (pyTruthy env = true →
      (setup_api_key env secrets).returnValue = some true) ∧
    (env = none →
      (secrets = SecretsOutcome.keyError ∨
        secrets = SecretsOutcome.attributeError) →
      (setup_api_key env secrets).returnValue = some false) := by
  constructor
  · intro h
    cases env with
    | none => simp [pyTruthy] at h
    | some v =>
      have hv : (!v.isEmpty) = true := h
      simp [setup_api_key, hv]
  · rintro rfl (rfl | rfl) <;> rfl

/-- Witness for C5: an environment value "k" yields true; an absent
environment value with a `KeyError` from the secrets lookup yields false. -/
theorem C5_witness :
    (setup_api_key (some "k".data) SecretsOutcome.keyError).returnValue =
        some true ∧
      (setup_api_key none SecretsOutcome.keyError).returnValue = some false :=
  ⟨(C5_env_or_secrets (some "k".data) SecretsOutcome.keyError).1 (by decide),
   (C5_env_or_secrets none SecretsOutcome.keyError).2 rfl (Or.inl rfl)⟩

/-- Counterexample to C6 as stated: when the secrets lookup raises an
exception that is an instance of neither `KeyError` nor `AttributeError`
(here of class `StreamlitSecretNotFoundError`), `setup_api_key` does not
return false; the exception escapes. -/
theorem C6_counterexample :
    (setup_api_key none (SecretsOutcome.otherError exOtherName)).raised =
        some exOtherName ∧
      (setup_api_key none (SecretsOutcome.otherError exOtherName)).returnValue ≠
        some false :=
  ⟨rfl, by decide⟩

/-- Claim C6 (amended): when the environment value is falsy, a lookup failure
raising `KeyError` or `AttributeError` makes `setup_api_key` return false
without propagating, while an exception of any other class propagates out of
`setup_api_key`. -/
theorem C6_catch_limited (env : Option PyStr) (secrets : SecretsOutcome)
    (henv : pyTruthy env = false) :
    ((secrets = SecretsOutcome.keyError ∨
        secrets = SecretsOutcome.attributeError) →
      (setup_api_key env secrets).returnValue = some false ∧
        (setup_api_key env secrets).raised = none) ∧
    (∀ n, secrets = SecretsOutcome.otherError n →
      (setup_api_key env secrets).returnValue = none ∧
        (setup_api_key env secrets).raised = some n) := by
  have hred : setup_api_key env secrets = setupFromSecrets secrets := by
    cases env with
    | none => rfl
    | some v =>
      have hv : (!v.isEmpty) = false := henv
      simp [setup_api_key, hv]
  rw [hred]
  constructor
  · rintro (rfl | rfl) <;> exact ⟨rfl, rfl⟩
  · rintro n rfl; exact ⟨rfl, rfl⟩

/-- Witness for C6 (amended): `KeyError` is caught and mapped to false;
an exception of another class escapes. -/
theorem C6_witness :
    ((setup_api_key none SecretsOutcome.keyError).returnValue = some false ∧
      (setup_api_key none SecretsOutcome.keyError).raised = none) ∧
    ((setup_api_key none
        (SecretsOutcome.otherError exOtherName)).returnValue = none ∧
      (setup_api_key none (SecretsOutcome.otherError exOtherName)).raised =
        some exOtherName) :=
  ⟨(C6_catch_limited none SecretsOutcome.keyError rfl).1 (Or.inl rfl),
   (C6_catch_limited none (SecretsOutcome.otherError exOtherName) rfl).2
     exOtherName rfl⟩

/-- Claim C7: for every input with at least one non-whitespace character, the
rendered prompt sent to the service is the fixed multi-section template with
the input embedded verbatim between the literal delimiter lines, and it
contains the template's literal placeholder tokens. -/
theorem C7_prompt_template (remote : PyStr → RemoteOutcome) (t : PyStr)
    (h : ¬ ∀ c ∈ t, pyIsSpace c = true) : promptContract remote t := by
  refine ⟨?_, rfl, ?_, ?_, ?_, ?_, ?_, ?_, ?_, ?_, ?_⟩
  · unfold generate_er_note
    rw [if_neg (genCond_false t h)]
    cases remote (renderPrompt t) <;> rfl
  · refine ⟨promptIntro,
      seg0 ++ (tokDeptName ++ (seg1 ++ (tokEd ++ (seg2 ++ (tokMrn ++
        (seg3 ++ (tokBday ++ (seg4 ++ (tokChief ++ (seg5 ++ (tokPmh ++
        (seg6 ++ (tokEdCourse ++ (seg7 ++ (tokMdName ++ seg8))))))))))))))),
      ?_⟩
    simp [renderPrompt, promptHead, promptTail, List.append_assoc]
  all_goals {
    apply occursIn_append_right _ (promptHead ++ t) _
    unfold promptTail
    repeat first
      | exact occursIn_head _ _
      | apply occursIn_append_right
  }

/-- Witness for C7 at the input "72F chest pain, triage note attached". -/
theorem C7_witness :
    promptContract remoteNull "72F chest pain, triage note attached".data :=
  C7_prompt_template remoteNull "72F chest pain, triage note attached".data
    (by decide)

/-- Claim C8: when credential resolution returns false, the script renders
only the page-level blocking error: no text area, no submit button, no
generation result, and no network call. -/
theorem C8_blocked_state (buttonPressed : Bool) (sourceText : PyStr)
    (remote : PyStr → RemoteOutcome) :
    app_main false buttonPressed sourceText remote =
        { pageError := some keyMissingMsg, textAreaShown := false,
          buttonShown := false, generated := none } ∧
      (app_main false buttonPressed sourceText remote).networkCalls = [] :=
  ⟨rfl, rfl⟩

/-- Claim C9: when the environment variable is present but empty (falsy),
`setup_api_key` does not use that value: it behaves exactly as when the
variable is absent, and what it configures is the secrets value. -/
theorem C9_empty_env_falls_through (secrets : SecretsOutcome) :
    setup_api_key (some []) secrets = setup_api_key none secrets ∧
      ∀ v, (setup_api_key (some []) (SecretsOutcome.found v)).configuredKey =
        some v :=
  ⟨rfl, fun _ => rfl⟩

/-- Claim C10: the post-processing applied to a successful response (remove
every occurrence of three consecutive backticks, then trim surrounding
whitespace) is idempotent. -/
theorem C10_postProcess_idempotent (l : PyStr) :
    postProcess (postProcess l) = postProcess l := by
  have hf2 : containsTriple (postProcess l) = false := containsTriple_postProcess l
  show pyStrip (replaceTicks (postProcess l)) = postProcess l
  rw [replaceTicks_eq_self _ hf2]
  show pyStrip (pyStrip (replaceTicks l)) = postProcess l
  rw [pyStrip_idem]
  rfl
